import Mathlib

/-!
# pirate-weather-cli: a shallow embedding of `main.go`

The file embeds the single source file of the command-line client:

* Go `float64` values are modelled by `Float64`: a sign bit with an exact rational
  magnitude for finite values, the two infinities, and NaN.  Comparison, multiplication
  (round to nearest, ties to even, 53 significant bits) and the `%.Nf` verb are
  defined on that model.
* Go `string`s are modelled by Lean strings (text), Go `int`s by `Int`.
* What the program obtains from its surroundings (environment variables, the float
  parser, the time-zone database, the HTTP client, the JSON decoder) is collected in
  `Runtime`; parsed command-line flags are in `Flags`.
* `main` returns an `Outcome`: the text written to standard output, the list of
  URLs requested, and whether the run stopped with a run-time panic.
-/

namespace PirateWeather

/-! ## float64 -/

/-- Go `float64`: `finite neg mag` is the value `± |mag|` with sign bit `neg`
(so `finite true 0` is negative zero), `inf neg` is `±Inf`, `nan` is NaN. -/
inductive Float64 where
  | finite (neg : Bool) (mag : ℚ)
  | inf (neg : Bool)
  | nan
  deriving DecidableEq

namespace Float64

/-- Exact value of a finite float. -/
def toRat? : Float64 → Option ℚ
  | finite neg mag => some (if neg then -|mag| else |mag|)
  | _ => none

/-- IEEE comparison `a < b`: false whenever an operand is NaN. -/
def lt : Float64 → Float64 → Bool
  | finite s a, finite t b => decide ((if s then -|a| else |a|) < (if t then -|b| else |b|))
  | finite _ _, inf t => !t
  | inf s, finite _ _ => s
  | inf s, inf t => s && !t
  | _, _ => false

/-- IEEE comparison `a <= b`: false whenever an operand is NaN. -/
def le : Float64 → Float64 → Bool
  | finite s a, finite t b => decide ((if s then -|a| else |a|) ≤ (if t then -|b| else |b|))
  | finite _ _, inf t => !t
  | inf s, finite _ _ => s
  | inf s, inf t => s || !t
  | _, _ => false

/-- Number of binary digits of `n`, computed with at most `fuel` halvings. -/
def bitLength : Nat → Nat → Nat
  | 0, _ => 0
  | fuel + 1, n => if n = 0 then 0 else bitLength fuel (n / 2) + 1

/-- The integer `k` with `2^k ≤ q < 2^(k+1)`, for `q > 0`: the difference of the bit
lengths of numerator and denominator, or one less. -/
def floorLog2 (q : ℚ) : Int :=
  let k : Int := (bitLength q.num.natAbs q.num.natAbs : Int) - (bitLength q.den q.den : Int)
  if (2 : ℚ) ^ k ≤ q then k else k - 1

/-- Nearest natural number to `q ≥ 0`, exact halves going to the even neighbour. -/
def roundHalfEven (q : ℚ) : Nat :=
  let f := ⌊q⌋₊
  let r := q - f
  if r < 1 / 2 then f
  else if 1 / 2 < r then f + 1
  else if f % 2 = 0 then f else f + 1

/-- Rounding of the exact magnitude `mag ≥ 0` to binary64 (round to nearest, ties to
even; 53-bit significand, least exponent -1074, overflow to infinity). -/
def round (neg : Bool) (mag : ℚ) : Float64 :=
  if mag = 0 then finite neg 0
  else
    let e : Int := max (floorLog2 mag) (-1022) - 52
    let m : Nat := roundHalfEven (mag / (2 : ℚ) ^ e)
    let r : ℚ := m * (2 : ℚ) ^ e
    if (2 : ℚ) ^ (1024 : Int) ≤ r then inf neg else finite neg r

/-- A decimal constant as the float64 it denotes (the nearest one). -/
def lit (q : ℚ) : Float64 := round (decide (q < 0)) |q|

/-- Go `a * b` on float64. -/
def mul : Float64 → Float64 → Float64
  | finite s a, finite t b => round (xor s t) (|a| * |b|)
  | finite s a, inf t => if a = 0 then nan else inf (xor s t)
  | inf s, finite t b => if b = 0 then nan else inf (xor s t)
  | inf s, inf t => inf (xor s t)
  | _, _ => nan

end Float64

/-- Decimal text `s` padded on the left with zeros to `width` characters. -/
def padZeros (width : Nat) (s : String) : String :=
  String.mk (List.replicate (width - s.length) '0') ++ s

/-- Go `fmt` verb `%.Nf` with `N = prec`: the exact value rounded to `prec` decimals
(exact halves to the even digit), the sign bit shown as `-`, no decimal point when
`prec = 0`; `NaN`, `+Inf` and `-Inf` for the special values. -/
def fmtFixed (prec : Nat) : Float64 → String
  | .nan => "NaN"
  | .inf neg => if neg then "-Inf" else "+Inf"
  | .finite neg mag =>
    let n := Float64.roundHalfEven (|mag| * (10 : ℚ) ^ prec)
    (if neg then "-" else "") ++ toString (n / 10 ^ prec) ++
      (if prec = 0 then "" else "." ++ padZeros prec (toString (n % 10 ^ prec)))

/-- Go `Time.Format("3:04 PM")` for a wall clock reading `hour:min`: hour on the
12-hour dial without padding, minute in two digits, then `AM` or `PM`. -/
def formatKitchen (hour min : Nat) : String :=
  toString (if hour % 12 = 0 then 12 else hour % 12) ++ ":" ++ padZeros 2 (toString min) ++ " " ++
    (if 12 ≤ hour then "PM" else "AM")

/-! ## Data model (main.go 14-35) -/

structure CurrentlyBlock where
  Icon : String
  Time : Int
  Summary : String
  Temperature : Float64
  ApparentTemperature : Float64
  PrecipProbability : Float64
  WindSpeed : Float64
  Humidity : Float64
  deriving DecidableEq

structure DailyDatum where
  MoonPhase : Float64
  SunriseTime : Int
  SunsetTime : Int
  deriving DecidableEq

structure DailyBlock where
  Data : List DailyDatum
  deriving DecidableEq

structure WeatherResponse where
  Latitude : Float64
  Longitude : Float64
  Timezone : String
  Currently : CurrentlyBlock
  Daily : DailyBlock
  deriving DecidableEq

/-- The parts of `*http.Response` the program reads: the status line text, the status
code, and the whole body. -/
structure HttpResponse where
  Status : String
  StatusCode : Int
  Body : String

/-- What the program obtains from its surroundings.  `Loc` stands for `*time.Location`.
* `getenv` is `os.Getenv` (the empty string for an unset variable);
* `parseFloat s` is `strconv.ParseFloat(s, 64)`, `none` when it returns an error;
* `loadLocation` is `time.LoadLocation`, `none` when it returns an error;
* `clock loc ts` is the wall clock `(hour, minute)` of `time.Unix(ts, 0).In(loc)`;
* `httpGet` is `http.Get`, the error rendered as text;
* `jsonDecode` is `json.NewDecoder(body).Decode` into a `WeatherResponse`. -/
structure Runtime (Loc : Type) where
  getenv : String → String
  parseFloat : String → Option Float64
  loadLocation : String → Option Loc
  clock : Loc → Int → Nat × Nat
  httpGet : String → Except String HttpResponse
  jsonDecode : String → Except String WeatherResponse

/-- Values given on the command line (`none`: flag absent), after `flag.Parse`
accepted the arguments. -/
structure Flags where
  lat : Option Float64
  lon : Option Float64
  units : Option String

/-- Observable result of a run: text written to standard output, URLs requested with
`http.Get` in order, and whether the run ended in a run-time panic. -/
structure Outcome where
  stdout : String
  requests : List String
  panicked : Bool
  deriving DecidableEq

/-! ## `getFloatFromEnv` (main.go 37-47) -/

def getFloatFromEnv {Loc : Type} (rt : Runtime Loc) (envVar : String)
    (defaultValue : Float64) : Float64 :=
  let val := rt.getenv envVar
  if val = "" then defaultValue
  else
    match rt.parseFloat val with
    | none => defaultValue
    | some f => f

/-! ## `getMoonPhaseEmoji` (main.go 49-68) -/

def getMoonPhaseEmoji (moonPhase : Float64) : String :=
  if moonPhase.lt (Float64.lit 0.125) then "🌑" -- new moon
  else if moonPhase.lt (Float64.lit 0.25) then "🌒" -- waxing crescent
  else if moonPhase.lt (Float64.lit 0.375) then "🌓" -- first quarter
  else if moonPhase.lt (Float64.lit 0.5) then "🌔" -- waxing gibbous
  else if moonPhase.lt (Float64.lit 0.625) then "🌕" -- full moon
  else if moonPhase.lt (Float64.lit 0.75) then "🌖" -- waning gibbous
  else if moonPhase.lt (Float64.lit 0.875) then "🌗" -- last quarter
  else "🌘" -- waning crescent

/-! ## `formatTime` (main.go 70-77) -/

def formatTime {Loc : Type} (rt : Runtime Loc) (timestamp : Int) (timezone : String) : String :=
  match rt.loadLocation timezone with
  | none => "N/A"
  | some loc =>
    let t := rt.clock loc timestamp
    formatKitchen t.1 t.2

/-! ## `main` (main.go 79-173) -/

/-- Go map read `m[key]` on a `map[string]V`: the zero value `zero` for an absent key. -/
def mapGet {V : Type} (m : List (String × V)) (zero : V) (key : String) : V :=
  (m.lookup key).getD zero

/-- The map `validUnits` (line 98). -/
def validUnits : List (String × Bool) :=
  [("us", true), ("si", true), ("ca", true), ("uk", true)]

/-- The map `emoji` (lines 126-140); `moon` is the value computed on line 128. -/
def emoji (moon : String) : List (String × String) :=
  [("clear-day", "☀️"),
   ("clear-night", moon),
   ("rain", "🌧️"),
   ("snow", "🌨️"),
   ("sleet", "🌨️"),
   ("wind", "🌬️"),
   ("fog", "🌫️"),
   ("cloudy", "☁️"),
   ("partly-cloudy-day", "🌤️"),
   ("partly-cloudy-night", "☁️"),
   ("thunderstorm", "⛈️"),
   ("hail", "🌨️"),
   ("none", "🏴‍☠️")]

/-- Lines 126-145: the variable `icon`.  Building the map evaluates
`weather.Daily.Data[0]`; `none` is the index-out-of-range panic. -/
def icon (weather : WeatherResponse) : Option String :=
  match weather.Daily.Data[0]? with
  | none => none
  | some d0 =>
    let i := mapGet (emoji (getMoonPhaseEmoji d0.MoonPhase)) "" weather.Currently.Icon
    some (if i = "" then "🏴‍☠️" else i)

/-- Lines 147-150: the variable `tempUnit`. -/
def tempUnit (units : String) : String :=
  if units = "si" ∨ units = "ca" ∨ units = "uk" then "°C" else "°F"

/-- Lines 152-157: the variable `windUnit`. -/
def windUnit (units : String) : String :=
  if units = "si" then "m/s"
  else if units = "ca" then "km/h"
  else "mph"

/-- Lines 162-172: the text of the ten `Printf` calls, in order. -/
def reportLines (lat lon : Float64) (units icon sunrise sunset : String)
    (weather : WeatherResponse) : List String :=
  ["Pirate Weather\n",
   "📍 " ++ fmtFixed 6 lat ++ "," ++ fmtFixed 6 lon ++ "\n",
   icon ++ " " ++ weather.Currently.Summary ++ "\n",
   "🌅 Sunrise:        " ++ sunrise ++ "\n",
   "🌇 Sunset:         " ++ sunset ++ "\n",
   "🌡️ Temperature:    " ++ fmtFixed 1 weather.Currently.Temperature ++ tempUnit units ++ "\n",
   "🌡️ Feels Like:     " ++ fmtFixed 1 weather.Currently.ApparentTemperature ++ tempUnit units
     ++ "\n",
   "☔️ Precip Chance:  " ++
     fmtFixed 0 (weather.Currently.PrecipProbability.mul (Float64.lit 100)) ++ "%\n",
   "💧 Humidity:       " ++ fmtFixed 0 (weather.Currently.Humidity.mul (Float64.lit 100)) ++ "%\n",
   "💨 Wind Speed:     " ++ fmtFixed 1 weather.Currently.WindSpeed ++ " " ++ windUnit units ++ "\n"]

/-- Lines 126-172, the rendering step after a successful decode: the text printed,
or `none` when an index into `weather.Daily.Data` is out of range.  The first index
(line 128) is evaluated before anything is printed. -/
def render {Loc : Type} (rt : Runtime Loc) (lat lon : Float64) (units : String)
    (weather : WeatherResponse) : Option String :=
  match icon weather with
  | none => none
  | some icon =>
    match weather.Daily.Data[0]? with
    | none => none
    | some d0 =>
      let sunrise := formatTime rt d0.SunriseTime weather.Timezone
      let sunset := formatTime rt d0.SunsetTime weather.Timezone
      some (String.join (reportLines lat lon units icon sunrise sunset weather))

/-- Lines 80-81, 87-88: the value of `*lat` after `flag.Parse`. -/
def resolvedLat {Loc : Type} (rt : Runtime Loc) (flags : Flags) : Float64 :=
  flags.lat.getD (getFloatFromEnv rt "PIRATE_WEATHER_LAT" (Float64.lit 40.7128))

/-- The value of `*lon` after `flag.Parse`. -/
def resolvedLon {Loc : Type} (rt : Runtime Loc) (flags : Flags) : Float64 :=
  flags.lon.getD (getFloatFromEnv rt "PIRATE_WEATHER_LON" (Float64.lit (-74.0060)))

/-- Lines 82-85, 89: the value of `*units` after `flag.Parse`. -/
def resolvedUnits {Loc : Type} (rt : Runtime Loc) (flags : Flags) : String :=
  flags.units.getD
    (if rt.getenv "PIRATE_WEATHER_UNITS" = "" then "us" else rt.getenv "PIRATE_WEATHER_UNITS")

/-- Lines 104-105: the request URL. -/
def requestURL (apiKey : String) (lat lon : Float64) (units : String) : String :=
  "https://api.pirateweather.net/forecast/" ++ apiKey ++ "/" ++ fmtFixed 6 lat ++ "," ++
    fmtFixed 6 lon ++ "?units=" ++ units ++ "&exclude=minutely,hourly,alerts"

/-- The whole run.  Each early `return` of the source ends the run with what has been
printed so far; a panic in the rendering step ends it with nothing printed. -/
def main {Loc : Type} (rt : Runtime Loc) (flags : Flags) : Outcome :=
  let lat := resolvedLat rt flags
  let lon := resolvedLon rt flags
  let units := resolvedUnits rt flags
  let apiKey := rt.getenv "PIRATE_WEATHER_API_KEY" -- line 92
  if apiKey = "" then
    { stdout := "Please set PIRATE_WEATHER_API_KEY environment variable\n",
      requests := [], panicked := false }
  else if !(mapGet validUnits false units) then -- line 99
    { stdout := "Invalid units. Must be one of: us, si, ca, uk\n",
      requests := [], panicked := false }
  else
    let url := requestURL apiKey lat lon units
    match rt.httpGet url with -- line 107
    | .error err =>
      { stdout := "Error making request: " ++ err ++ "\n", requests := [url], panicked := false }
    | .ok resp =>
      if resp.StatusCode ≠ 200 then -- line 114
        { stdout := "API returned error: " ++ resp.Status ++ "\n" ++ resp.Body ++ "\n",
          requests := [url], panicked := false }
      else
        match rt.jsonDecode resp.Body with -- line 121
        | .error err =>
          { stdout := "Error decoding response: " ++ err ++ "\n", requests := [url],
            panicked := false }
        | .ok weather =>
          match render rt lat lon units weather with -- lines 126-172
          | none => { stdout := "", requests := [url], panicked := true }
          | some text => { stdout := text, requests := [url], panicked := false }

/-! ## Auxiliary definitions for the statements -/

/-- The eight moon-phase emoji in bucket order. -/
def moonPhaseEmojis : List String := ["🌑", "🌒", "🌓", "🌔", "🌕", "🌖", "🌗", "🌘"]

/-- A run that gets past configuration, receives status 200 and decodes the body
into `weather`. -/
def Decodes {Loc : Type} (rt : Runtime Loc) (flags : Flags) (weather : WeatherResponse) : Prop :=
  rt.getenv "PIRATE_WEATHER_API_KEY" ≠ "" ∧
  mapGet validUnits false (resolvedUnits rt flags) = true ∧
  ∃ resp, rt.httpGet (requestURL (rt.getenv "PIRATE_WEATHER_API_KEY") (resolvedLat rt flags)
      (resolvedLon rt flags) (resolvedUnits rt flags)) = .ok resp ∧
    resp.StatusCode = 200 ∧ rt.jsonDecode resp.Body = .ok weather

/-- Number of line breaks in a text. -/
def lineBreaks (s : String) : Nat := s.data.count '\n'

/-- A sample decoded response with the given icon code, summary and daily data:
temperature 72.3, humidity 0.55, precipitation probability 0.1, wind speed 5. -/
def sampleWeather (iconCode summary : String) (daily : List DailyDatum) : WeatherResponse :=
  { Latitude := Float64.lit 40.7128, Longitude := Float64.lit (-74.006),
    Timezone := "America/New_York",
    Currently :=
      { Icon := iconCode, Time := 1700000000, Summary := summary,
        Temperature := Float64.lit 72.3, ApparentTemperature := Float64.lit 70.1,
        PrecipProbability := Float64.lit 0.1, WindSpeed := Float64.lit 5,
        Humidity := Float64.lit 0.55 },
    Daily := { Data := daily } }

/-- A sample runtime: the API key is set, `PIRATE_WEATHER_LAT` is `abc` (no float),
`PIRATE_WEATHER_LON` is `-0.1278`, one zone is known (five hours west of UTC), and every
request is answered by `resp`, whose body decodes to `weather`. -/
def sampleRuntime (resp : HttpResponse) (weather : WeatherResponse) : Runtime Int :=
  { getenv := fun v =>
      if v = "PIRATE_WEATHER_API_KEY" then "k"
      else if v = "PIRATE_WEATHER_LAT" then "abc"
      else if v = "PIRATE_WEATHER_LON" then "-0.1278"
      else "",
    parseFloat := fun s => if s = "-0.1278" then some (Float64.lit (-0.1278)) else none,
    loadLocation := fun tz => if tz = "America/New_York" then some (-18000) else none,
    clock := fun off ts => ((((ts + off) / 3600) % 24).toNat, (((ts + off) / 60) % 60).toNat),
    httpGet := fun _ => .ok resp,
    jsonDecode := fun _ => .ok weather }

/-! ## Facts about the float model -/

theorem lit_0125 : Float64.lit 0.125 = .finite false (1/8) := by decide!
theorem lit_025 : Float64.lit 0.25 = .finite false (1/4) := by decide!
theorem lit_0375 : Float64.lit 0.375 = .finite false (3/8) := by decide!
theorem lit_05 : Float64.lit 0.5 = .finite false (1/2) := by decide!
theorem lit_0625 : Float64.lit 0.625 = .finite false (5/8) := by decide!
theorem lit_075 : Float64.lit 0.75 = .finite false (3/4) := by decide!
theorem lit_0875 : Float64.lit 0.875 = .finite false (7/8) := by decide!
theorem lit_zero : Float64.lit 0 = .finite false 0 := by decide!
theorem lit_one : Float64.lit 1 = .finite false 1 := by decide!

/-- Comparison of a finite float with a non-negative finite constant is comparison of
the exact values. -/
theorem lt_finite_of_toRat (x : Float64) (p c : ℚ) (hx : x.toRat? = some p) (hc : 0 ≤ c) :
    x.lt (.finite false c) = decide (p < c) := by
  cases x with
  | finite neg mag =>
    simp only [Float64.toRat?, Option.some.injEq] at hx
    subst hx
    simp [Float64.lt, abs_of_nonneg hc]
  | inf neg => simp [Float64.toRat?] at hx
  | nan => simp [Float64.toRat?] at hx

/-- The cascade of `getMoonPhaseEmoji` on the exact value of a finite float. -/
theorem getMoonPhaseEmoji_of_toRat (x : Float64) (p : ℚ) (hx : x.toRat? = some p) :
    getMoonPhaseEmoji x =
      if p < 1/8 then "🌑" else if p < 1/4 then "🌒" else if p < 3/8 then "🌓"
      else if p < 1/2 then "🌔" else if p < 5/8 then "🌕" else if p < 3/4 then "🌖"
      else if p < 7/8 then "🌗" else "🌘" := by
  simp only [getMoonPhaseEmoji, lit_0125, lit_025, lit_0375, lit_05, lit_0625, lit_075, lit_0875]
  rw [lt_finite_of_toRat x p _ hx (by norm_num), lt_finite_of_toRat x p _ hx (by norm_num),
    lt_finite_of_toRat x p _ hx (by norm_num), lt_finite_of_toRat x p _ hx (by norm_num),
    lt_finite_of_toRat x p _ hx (by norm_num), lt_finite_of_toRat x p _ hx (by norm_num),
    lt_finite_of_toRat x p _ hx (by norm_num)]
  simp only [decide_eq_true_eq]

/-! ## C3, C4: moon-phase buckets -/

/-- C3: for every finite moon-phase value `x` with exact value `p`, `0 ≤ p < 1`,
`getMoonPhaseEmoji x` is the emoji number `⌊p / 0.125⌋` (counting from 0) of the list
🌑, 🌒, 🌓, 🌔, 🌕, 🌖, 🌗, 🌘; and the boundary value 0.125 is mapped to 🌒, the
second bucket. -/
theorem getMoonPhaseEmoji_bucket (x : Float64) (p : ℚ) (hx : x.toRat? = some p)
    (h0 : 0 ≤ p) (h1 : p < 1) :
    moonPhaseEmojis[⌊p / 0.125⌋₊]? = some (getMoonPhaseEmoji x) ∧
      getMoonPhaseEmoji (Float64.lit 0.125) = "🌒" := by
  refine ⟨?_, by decide!⟩
  rw [getMoonPhaseEmoji_of_toRat x p hx]
  have h8 : p / 0.125 = 8 * p := by norm_num; ring
  rw [h8]
  have hk : ⌊8 * p⌋₊ < 8 := by
    rw [Nat.floor_lt (by linarith)]
    norm_num
    linarith
  have hle : (⌊8 * p⌋₊ : ℚ) ≤ 8 * p := Nat.floor_le (by linarith)
  have hlt : 8 * p < (⌊8 * p⌋₊ : ℚ) + 1 := Nat.lt_floor_add_one _
  generalize ⌊8 * p⌋₊ = k at hk hle hlt
  interval_cases k <;> norm_num at hle hlt <;> simp only [moonPhaseEmojis] <;>
    (repeat (first | rw [if_pos (by linarith)] | rw [if_neg (by linarith)])) <;> rfl

theorem getMoonPhaseEmoji_bucket_witness :
    moonPhaseEmojis[⌊(0.3125 : ℚ) / 0.125⌋₊]? =
        some (getMoonPhaseEmoji (.finite false 0.3125)) ∧
      getMoonPhaseEmoji (Float64.lit 0.125) = "🌒" :=
  getMoonPhaseEmoji_bucket (.finite false 0.3125) 0.3125 (by decide!) (by decide!) (by decide!)

/-- C4 as stated fails: at the moon-phase value -1, which is below 0,
`getMoonPhaseEmoji` returns 🌑 (the first bucket), not 🌘. -/
theorem getMoonPhaseEmoji_negative_counterexample :
    ¬ ∀ x : Float64, ((Float64.lit 1).le x = true ∨ x.lt (Float64.lit 0) = true) →
        getMoonPhaseEmoji x = "🌘" := by
  intro h
  have h1 := h (Float64.lit (-1)) (Or.inr (by decide!))
  revert h1
  decide!

/-- C4 amended: every moon-phase value `x` with `x >= 1` (including `+Inf`) gets the
last-bucket emoji 🌘, and every `x` with `x < 0` (including `-Inf`) gets the
first-bucket emoji 🌑. -/
theorem getMoonPhaseEmoji_outside_domain (x : Float64) :
    ((Float64.lit 1).le x = true → getMoonPhaseEmoji x = "🌘") ∧
      (x.lt (Float64.lit 0) = true → getMoonPhaseEmoji x = "🌑") := by
  rw [lit_one, lit_zero]
  cases x with
  | finite neg mag =>
    have hx : (Float64.finite neg mag).toRat? = some (if neg then -|mag| else |mag|) := rfl
    rw [getMoonPhaseEmoji_of_toRat _ _ hx]
    simp only [Float64.le, Float64.lt, decide_eq_true_eq, Bool.false_eq_true, if_false, abs_zero,
      abs_one]
    generalize (if neg then -|mag| else |mag|) = p
    constructor
    · intro h
      repeat rw [if_neg (by linarith)]
    · intro h
      rw [if_pos (by linarith)]
  | inf neg =>
    cases neg <;>
      simp [getMoonPhaseEmoji, Float64.le, Float64.lt, lit_0125, lit_025, lit_0375, lit_05,
        lit_0625, lit_075, lit_0875]
  | nan => simp [Float64.le, Float64.lt]

theorem getMoonPhaseEmoji_outside_domain_witness :
    getMoonPhaseEmoji (Float64.lit 2) = "🌘" ∧ getMoonPhaseEmoji (Float64.lit (-1)) = "🌑" :=
  ⟨(getMoonPhaseEmoji_outside_domain (Float64.lit 2)).1 (by decide!),
   (getMoonPhaseEmoji_outside_domain (Float64.lit (-1))).2 (by decide!)⟩

/-! ## C6: `getFloatFromEnv` -/

/-- C6: `getFloatFromEnv` returns the default when the variable is unset or empty or
its value does not parse, and the parsed value when it parses; its result is always a
float (there is no error result).  With `PIRATE_WEATHER_LAT=abc` and default 40.7128 it
returns 40.7128, and the run goes on with that latitude. -/
theorem getFloatFromEnv_fallback {Loc : Type} (rt : Runtime Loc) (envVar : String)
    (d : Float64) :
    ((rt.getenv envVar = "" ∨ rt.parseFloat (rt.getenv envVar) = none) →
        getFloatFromEnv rt envVar d = d) ∧
      (∀ f, rt.getenv envVar ≠ "" → rt.parseFloat (rt.getenv envVar) = some f →
        getFloatFromEnv rt envVar d = f) := by
  constructor
  · rintro (h | h)
    · simp [getFloatFromEnv, h]
    · by_cases he : rt.getenv envVar = ""
      · simp [getFloatFromEnv, he]
      · simp [getFloatFromEnv, he, h]
  · intro f he hf
    simp [getFloatFromEnv, he, hf]

theorem getFloatFromEnv_fallback_witness :
    (sampleRuntime ⟨"200 OK", 200, ""⟩ (sampleWeather "clear-day" "Clear" [])).getenv
        "PIRATE_WEATHER_LAT" = "abc" ∧
      getFloatFromEnv (sampleRuntime ⟨"200 OK", 200, ""⟩ (sampleWeather "clear-day" "Clear" []))
        "PIRATE_WEATHER_LAT" (Float64.lit 40.7128) = Float64.lit 40.7128 ∧
      getFloatFromEnv (sampleRuntime ⟨"200 OK", 200, ""⟩ (sampleWeather "clear-day" "Clear" []))
        "PIRATE_WEATHER_LON" (Float64.lit (-74.0060)) = Float64.lit (-0.1278) :=
  ⟨by decide,
   (getFloatFromEnv_fallback
      (sampleRuntime ⟨"200 OK", 200, ""⟩ (sampleWeather "clear-day" "Clear" []))
      "PIRATE_WEATHER_LAT" (Float64.lit 40.7128)).1 (Or.inr (by decide)),
   (getFloatFromEnv_fallback
      (sampleRuntime ⟨"200 OK", 200, ""⟩ (sampleWeather "clear-day" "Clear" []))
      "PIRATE_WEATHER_LON" (Float64.lit (-74.0060))).2 (Float64.lit (-0.1278)) (by decide)
      rfl⟩

/-! ## C9: `formatTime` -/

/-- C9: when the time-zone lookup fails for the name, `formatTime` returns exactly
`N/A`; when it resolves to `loc`, the result is the 12-hour rendering of the wall clock
of the timestamp in `loc`, a function of the timestamp and `loc` alone. -/
theorem formatTime_degradation {Loc : Type} (rt : Runtime Loc) (timestamp : Int)
    (timezone : String) :
    (rt.loadLocation timezone = none → formatTime rt timestamp timezone = "N/A") ∧
      (∀ loc, rt.loadLocation timezone = some loc →
        formatTime rt timestamp timezone =
          formatKitchen (rt.clock loc timestamp).1 (rt.clock loc timestamp).2) := by
  constructor
  · intro h
    simp [formatTime, h]
  · intro loc h
    simp [formatTime, h]

theorem formatTime_degradation_witness :
    formatTime (sampleRuntime ⟨"200 OK", 200, ""⟩ (sampleWeather "clear-day" "Clear" []))
        1700047320 "Not/ARealZone" = "N/A" ∧
      formatTime (sampleRuntime ⟨"200 OK", 200, ""⟩ (sampleWeather "clear-day" "Clear" []))
        1700047320 "America/New_York" = "6:22 AM" :=
  ⟨(formatTime_degradation (sampleRuntime ⟨"200 OK", 200, ""⟩
      (sampleWeather "clear-day" "Clear" [])) 1700047320 "Not/ARealZone").1 (by decide),
   ((formatTime_degradation (sampleRuntime ⟨"200 OK", 200, ""⟩
      (sampleWeather "clear-day" "Clear" [])) 1700047320 "America/New_York").2 (-18000)
        (by decide)).trans (by decide!)⟩

/-! ## Facts about `main` -/

/-- Reading the map `validUnits` gives `true` exactly on its four keys. -/
theorem validUnits_iff (u : String) :
    mapGet validUnits false u = true ↔ u ∈ ["us", "si", "ca", "uk"] := by
  simp only [mapGet, validUnits, List.lookup]
  by_cases h1 : u = "us"
  · subst h1; decide
  by_cases h2 : u = "si"
  · subst h2; decide
  by_cases h3 : u = "ca"
  · subst h3; decide
  by_cases h4 : u = "uk"
  · subst h4; decide
  have e1 : (u == "us") = false := by simpa using h1
  have e2 : (u == "si") = false := by simpa using h2
  have e3 : (u == "ca") = false := by simpa using h3
  have e4 : (u == "uk") = false := by simpa using h4
  simp [e1, e2, e3, e4, h1, h2, h3, h4]

/-- A run that decodes `weather` ends as the rendering step ends. -/
theorem main_of_decodes {Loc : Type} (rt : Runtime Loc) (flags : Flags)
    (weather : WeatherResponse) (h : Decodes rt flags weather) :
    main rt flags =
      match render rt (resolvedLat rt flags) (resolvedLon rt flags) (resolvedUnits rt flags)
          weather with
      | none =>
        { stdout := "", panicked := true,
          requests := [requestURL (rt.getenv "PIRATE_WEATHER_API_KEY") (resolvedLat rt flags)
            (resolvedLon rt flags) (resolvedUnits rt flags)] }
      | some text =>
        { stdout := text, panicked := false,
          requests := [requestURL (rt.getenv "PIRATE_WEATHER_API_KEY") (resolvedLat rt flags)
            (resolvedLon rt flags) (resolvedUnits rt flags)] } := by
  obtain ⟨hk, hu, resp, hget, hcode, hdec⟩ := h
  simp only [main, hk, hu, hget, hcode, hdec, if_false, Bool.not_true, Bool.false_eq_true,
    ne_eq, not_true_eq_false]

/-- The rendering step fails exactly on an empty daily sequence. -/
theorem render_eq_none_iff {Loc : Type} (rt : Runtime Loc) (lat lon : Float64) (units : String)
    (weather : WeatherResponse) :
    render rt lat lon units weather = none ↔ weather.Daily.Data = [] := by
  cases hd : weather.Daily.Data with
  | nil => simp [render, icon, hd]
  | cons d0 rest => simp [render, icon, hd]

/-! ## C5: configuration validation -/

/-- C5: the run requests the URL (one `http.Get`) if and only if the API key is
non-empty and units is one of us, si, ca, uk.  With an empty API key, or with a
non-empty key and other units, the whole output is one configuration message, no
request is made and the run ends normally. -/
theorem config_validation {Loc : Type} (rt : Runtime Loc) (flags : Flags) :
    ((main rt flags).requests ≠ [] ↔
        (rt.getenv "PIRATE_WEATHER_API_KEY" ≠ "" ∧
          resolvedUnits rt flags ∈ ["us", "si", "ca", "uk"])) ∧
      ((rt.getenv "PIRATE_WEATHER_API_KEY" ≠ "" ∧
          resolvedUnits rt flags ∈ ["us", "si", "ca", "uk"]) →
        (main rt flags).requests =
          [requestURL (rt.getenv "PIRATE_WEATHER_API_KEY") (resolvedLat rt flags)
            (resolvedLon rt flags) (resolvedUnits rt flags)]) ∧
      (rt.getenv "PIRATE_WEATHER_API_KEY" = "" →
        main rt flags =
          { stdout := "Please set PIRATE_WEATHER_API_KEY environment variable\n",
            requests := [], panicked := false }) ∧
      (rt.getenv "PIRATE_WEATHER_API_KEY" ≠ "" →
        resolvedUnits rt flags ∉ ["us", "si", "ca", "uk"] →
        main rt flags =
          { stdout := "Invalid units. Must be one of: us, si, ca, uk\n",
            requests := [], panicked := false }) := by
  have hreq : (rt.getenv "PIRATE_WEATHER_API_KEY" ≠ "" ∧
          resolvedUnits rt flags ∈ ["us", "si", "ca", "uk"]) →
        (main rt flags).requests =
          [requestURL (rt.getenv "PIRATE_WEATHER_API_KEY") (resolvedLat rt flags)
            (resolvedLon rt flags) (resolvedUnits rt flags)] := by
    rintro ⟨hk, hu⟩
    have hv := (validUnits_iff _).2 hu
    simp only [main, hk, hv, if_false, Bool.not_true, Bool.false_eq_true]
    split
    · rfl
    · split
      · rfl
      · split
        · rfl
        · split <;> rfl
  have hkey : rt.getenv "PIRATE_WEATHER_API_KEY" = "" →
        main rt flags =
          { stdout := "Please set PIRATE_WEATHER_API_KEY environment variable\n",
            requests := [], panicked := false } := by
    intro hk
    simp only [main, hk, if_true]
  have hunits : rt.getenv "PIRATE_WEATHER_API_KEY" ≠ "" →
        resolvedUnits rt flags ∉ ["us", "si", "ca", "uk"] →
        main rt flags =
          { stdout := "Invalid units. Must be one of: us, si, ca, uk\n",
            requests := [], panicked := false } := by
    intro hk hu
    have hv : mapGet validUnits false (resolvedUnits rt flags) = false := by
      rw [← Bool.not_eq_true]
      exact fun h => hu ((validUnits_iff _).1 h)
    simp only [main, hk, hv, if_false, Bool.not_false, if_true]
  refine ⟨⟨?_, fun h => by rw [hreq h]; simp⟩, hreq, hkey, hunits⟩
  intro hne
  by_contra hcon
  apply hne
  by_cases hk : rt.getenv "PIRATE_WEATHER_API_KEY" = ""
  · rw [hkey hk]
  · rw [hunits hk (fun hu => hcon ⟨hk, hu⟩)]

theorem config_validation_witness :
    (main (sampleRuntime ⟨"200 OK", 200, ""⟩ (sampleWeather "clear-day" "Clear" []))
        ⟨none, none, some "metric"⟩) =
      { stdout := "Invalid units. Must be one of: us, si, ca, uk\n",
        requests := [], panicked := false } :=
  (config_validation (sampleRuntime ⟨"200 OK", 200, ""⟩ (sampleWeather "clear-day" "Clear" []))
    ⟨none, none, some "metric"⟩).2.2.2 (by decide) (by decide)

/-! ## C7: a status other than 200 -/

/-- C7: when the configuration is valid and the request is answered with a status code
other than 200, status line `s` and body `b`, the whole output of the run is
`API returned error: ` followed by `s`, a line break, `b` and a line break; the run ends
there, without panic, after its single request. -/
theorem non200_output {Loc : Type} (rt : Runtime Loc) (flags : Flags) (resp : HttpResponse)
    (hk : rt.getenv "PIRATE_WEATHER_API_KEY" ≠ "")
    (hu : resolvedUnits rt flags ∈ ["us", "si", "ca", "uk"])
    (hget : rt.httpGet (requestURL (rt.getenv "PIRATE_WEATHER_API_KEY") (resolvedLat rt flags)
      (resolvedLon rt flags) (resolvedUnits rt flags)) = .ok resp)
    (hcode : resp.StatusCode ≠ 200) :
    main rt flags =
      { stdout := "API returned error: " ++ resp.Status ++ "\n" ++ resp.Body ++ "\n",
        requests := [requestURL (rt.getenv "PIRATE_WEATHER_API_KEY") (resolvedLat rt flags)
          (resolvedLon rt flags) (resolvedUnits rt flags)],
        panicked := false } := by
  have hv := (validUnits_iff _).2 hu
  simp only [main, hk, hv, hget, hcode, if_false, Bool.not_true, Bool.false_eq_true, ne_eq,
    not_false_eq_true, if_true]

theorem non200_output_witness :
    (main (sampleRuntime ⟨"500 Internal Server Error", 500, "boom"⟩
        (sampleWeather "clear-day" "Clear" [])) ⟨none, none, none⟩).stdout =
      "API returned error: 500 Internal Server Error\nboom\n" :=
  (congrArg Outcome.stdout (non200_output
    (sampleRuntime ⟨"500 Internal Server Error", 500, "boom"⟩
      (sampleWeather "clear-day" "Clear" [])) ⟨none, none, none⟩
    ⟨"500 Internal Server Error", 500, "boom"⟩ (by decide) (by decide) rfl (by decide))).trans
    (by decide)

/-! ## C10: indexing the daily data -/

/-- C10: in a run that decodes a 200 response, the run panics (index out of range) if
and only if the daily data sequence is empty, whatever the icon code, and then nothing
has been printed; when the sequence is `d0 :: rest`, the run ends normally and prints
what the rendering step prints for the same response with daily data `[d0]`. -/
theorem daily_indexing {Loc : Type} (rt : Runtime Loc) (flags : Flags)
    (weather : WeatherResponse) (h : Decodes rt flags weather) :
    ((main rt flags).panicked = true ↔ weather.Daily.Data = []) ∧
      (weather.Daily.Data = [] → (main rt flags).stdout = "") ∧
      (∀ d0 rest, weather.Daily.Data = d0 :: rest →
        (main rt flags).panicked = false ∧
        some (main rt flags).stdout =
          render rt (resolvedLat rt flags) (resolvedLon rt flags) (resolvedUnits rt flags)
            { weather with Daily := { Data := [d0] } }) := by
  rw [main_of_decodes rt flags weather h]
  cases hd : weather.Daily.Data with
  | nil =>
    have hr := (render_eq_none_iff rt (resolvedLat rt flags) (resolvedLon rt flags)
      (resolvedUnits rt flags) weather).2 hd
    simp [hr]
  | cons d0 rest =>
    simp [render, icon, hd, reportLines]

theorem daily_indexing_witness :
    (main (sampleRuntime ⟨"200 OK", 200, ""⟩ (sampleWeather "rain" "Rain" []))
      ⟨none, none, none⟩).panicked = true :=
  (daily_indexing (sampleRuntime ⟨"200 OK", 200, ""⟩ (sampleWeather "rain" "Rain" []))
    ⟨none, none, none⟩ (sampleWeather "rain" "Rain" [])
    ⟨by decide, by decide, ⟨"200 OK", 200, ""⟩, rfl, rfl, rfl⟩).1.2 rfl

/-! ## C2: the icon -/

theorem getMoonPhaseEmoji_ne_empty (x : Float64) : getMoonPhaseEmoji x ≠ "" := by
  unfold getMoonPhaseEmoji
  split_ifs <;> decide

/-- The variable `icon` when the daily data starts with `d0`. -/
theorem icon_of_cons (weather : WeatherResponse) (d0 : DailyDatum) (rest : List DailyDatum)
    (h : weather.Daily.Data = d0 :: rest) :
    icon weather =
      some (if mapGet (emoji (getMoonPhaseEmoji d0.MoonPhase)) "" weather.Currently.Icon = ""
        then "🏴‍☠️"
        else mapGet (emoji (getMoonPhaseEmoji d0.MoonPhase)) "" weather.Currently.Icon) := by
  simp [icon, h]

/-- C2: for a decoded response whose daily data starts with `d0`, the chosen icon is
the table entry for the twelve fixed icon codes, `getMoonPhaseEmoji` of the moon phase
of `d0` for clear-night, and 🏴‍☠️ for every other string (the empty string included). -/
theorem icon_mapping (weather : WeatherResponse) (d0 : DailyDatum) (rest : List DailyDatum)
    (h : weather.Daily.Data = d0 :: rest) :
    (weather.Currently.Icon = "clear-day" → icon weather = some "☀️") ∧
    (weather.Currently.Icon = "rain" → icon weather = some "🌧️") ∧
    (weather.Currently.Icon = "snow" → icon weather = some "🌨️") ∧
    (weather.Currently.Icon = "sleet" → icon weather = some "🌨️") ∧
    (weather.Currently.Icon = "wind" → icon weather = some "🌬️") ∧
    (weather.Currently.Icon = "fog" → icon weather = some "🌫️") ∧
    (weather.Currently.Icon = "cloudy" → icon weather = some "☁️") ∧
    (weather.Currently.Icon = "partly-cloudy-day" → icon weather = some "🌤️") ∧
    (weather.Currently.Icon = "partly-cloudy-night" → icon weather = some "☁️") ∧
    (weather.Currently.Icon = "thunderstorm" → icon weather = some "⛈️") ∧
    (weather.Currently.Icon = "hail" → icon weather = some "🌨️") ∧
    (weather.Currently.Icon = "none" → icon weather = some "🏴‍☠️") ∧
    (weather.Currently.Icon = "clear-night" →
      icon weather = some (getMoonPhaseEmoji d0.MoonPhase)) ∧
    (weather.Currently.Icon ∉ ["clear-day", "clear-night", "rain", "snow", "sleet", "wind",
        "fog", "cloudy", "partly-cloudy-day", "partly-cloudy-night", "thunderstorm", "hail",
        "none"] →
      icon weather = some "🏴‍☠️") := by
  rw [icon_of_cons weather d0 rest h]
  have hm := getMoonPhaseEmoji_ne_empty d0.MoonPhase
  generalize getMoonPhaseEmoji d0.MoonPhase = moon at hm
  generalize weather.Currently.Icon = c
  refine ⟨?_, ?_, ?_, ?_, ?_, ?_, ?_, ?_, ?_, ?_, ?_, ?_, ?_, ?_⟩
  case refine_13 =>
    intro hc
    subst hc
    have : mapGet (emoji moon) "" "clear-night" = moon := by
      simp [mapGet, emoji, List.lookup]
    rw [this, if_neg hm]
  case refine_14 =>
    intro hc
    simp only [List.mem_cons, List.mem_singleton, not_or, List.not_mem_nil, or_false] at hc
    obtain ⟨h1, h2, h3, h4, h5, h6, h7, h8, h9, h10, h11, h12, h13⟩ := hc
    have e1 : (c == "clear-day") = false := by simpa using h1
    have e2 : (c == "clear-night") = false := by simpa using h2
    have e3 : (c == "rain") = false := by simpa using h3
    have e4 : (c == "snow") = false := by simpa using h4
    have e5 : (c == "sleet") = false := by simpa using h5
    have e6 : (c == "wind") = false := by simpa using h6
    have e7 : (c == "fog") = false := by simpa using h7
    have e8 : (c == "cloudy") = false := by simpa using h8
    have e9 : (c == "partly-cloudy-day") = false := by simpa using h9
    have e10 : (c == "partly-cloudy-night") = false := by simpa using h10
    have e11 : (c == "thunderstorm") = false := by simpa using h11
    have e12 : (c == "hail") = false := by simpa using h12
    have e13 : (c == "none") = false := by simpa using h13
    simp [mapGet, emoji, List.lookup, e1, e2, e3, e4, e5, e6, e7, e8, e9, e10, e11, e12, e13]
  all_goals
    intro hc
    subst hc
    simp [mapGet, emoji, List.lookup]

theorem icon_mapping_witness :
    icon (sampleWeather "clear-night" "Clear" [⟨Float64.lit 0.5, 1700047320, 1700083800⟩]) =
        some "🌕" ∧
      icon (sampleWeather "" "Clear" [⟨Float64.lit 0.5, 1700047320, 1700083800⟩]) =
        some "🏴‍☠️" :=
  ⟨((icon_mapping (sampleWeather "clear-night" "Clear" [⟨Float64.lit 0.5, 1700047320, 1700083800⟩])
      ⟨Float64.lit 0.5, 1700047320, 1700083800⟩ [] rfl).2.2.2.2.2.2.2.2.2.2.2.2.1 rfl).trans
      (by decide!),
    (icon_mapping (sampleWeather "" "Clear" [⟨Float64.lit 0.5, 1700047320, 1700083800⟩])
      ⟨Float64.lit 0.5, 1700047320, 1700083800⟩ [] rfl).2.2.2.2.2.2.2.2.2.2.2.2.2 (by decide)⟩

/-! ## Line breaks in the printed pieces -/

theorem lineBreaks_append (a b : String) :
    lineBreaks (a ++ b) = lineBreaks a + lineBreaks b := by
  simp [lineBreaks, String.data_append, List.count_append]

theorem digitChar_ne_newline (d : Nat) : Nat.digitChar d ≠ '\n' := by
  have hsmall : ∀ k < 17, Nat.digitChar k ≠ '\n' := by decide
  by_cases h : d < 17
  · exact hsmall d h
  · have hstar : Nat.digitChar d = '*' := by
      unfold Nat.digitChar
      repeat (rw [if_neg (by omega)])
    rw [hstar]
    decide

theorem toDigitsCore_count (fuel n : Nat) (acc : List Char) :
    (Nat.toDigitsCore 10 fuel n acc).count '\n' = acc.count '\n' := by
  induction fuel generalizing n acc with
  | zero => simp [Nat.toDigitsCore]
  | succ f ih =>
    have hne : (Nat.digitChar (n % 10) == '\n') = false := by
      simpa using digitChar_ne_newline (n % 10)
    simp only [Nat.toDigitsCore]
    split
    · rw [List.count_cons, hne]
      simp
    · rw [ih, List.count_cons, hne]
      simp

theorem lineBreaks_natToString (n : Nat) : lineBreaks (toString n) = 0 := by
  show lineBreaks (Nat.repr n) = 0
  simp [lineBreaks, Nat.repr, Nat.toDigits, List.asString, toDigitsCore_count]

theorem lineBreaks_padZeros (w : Nat) (s : String) : lineBreaks (padZeros w s) = lineBreaks s := by
  simp [padZeros, lineBreaks, List.count_replicate]

theorem lineBreaks_fmtFixed (prec : Nat) (x : Float64) : lineBreaks (fmtFixed prec x) = 0 := by
  have h0 : lineBreaks "" = 0 := by decide
  have h1 : lineBreaks "-" = 0 := by decide
  have h2 : lineBreaks "." = 0 := by decide
  cases x with
  | nan =>
    show lineBreaks "NaN" = 0
    decide
  | inf neg =>
    cases neg
    · show lineBreaks "+Inf" = 0
      decide
    · show lineBreaks "-Inf" = 0
      decide
  | finite neg mag =>
    simp only [fmtFixed, lineBreaks_append, lineBreaks_natToString]
    split_ifs <;> simp [h0, h1, h2, lineBreaks_append, lineBreaks_padZeros, lineBreaks_natToString]

theorem lineBreaks_formatTime {Loc : Type} (rt : Runtime Loc) (timestamp : Int)
    (timezone : String) : lineBreaks (formatTime rt timestamp timezone) = 0 := by
  have h1 : lineBreaks ":" = 0 := by decide
  have h2 : lineBreaks " " = 0 := by decide
  have h3 : lineBreaks "PM" = 0 := by decide
  have h4 : lineBreaks "AM" = 0 := by decide
  have h5 : lineBreaks "N/A" = 0 := by decide
  unfold formatTime
  split
  · exact h5
  · simp only [formatKitchen, lineBreaks_append, lineBreaks_natToString, lineBreaks_padZeros]
    split_ifs <;> simp [h1, h2, h3, h4]

theorem lineBreaks_tempUnit (units : String) : lineBreaks (tempUnit units) = 0 := by
  unfold tempUnit
  split_ifs <;> decide

theorem lineBreaks_windUnit (units : String) : lineBreaks (windUnit units) = 0 := by
  unfold windUnit
  split_ifs <;> decide

theorem lineBreaks_getMoonPhaseEmoji (x : Float64) : lineBreaks (getMoonPhaseEmoji x) = 0 := by
  unfold getMoonPhaseEmoji
  split_ifs <;> decide

/-- A map read gives the zero value or one of the stored values. -/
theorem mapGet_mem {V : Type} (m : List (String × V)) (zero : V) (key : String) :
    mapGet m zero key = zero ∨ mapGet m zero key ∈ m.map Prod.snd := by
  induction m with
  | nil => left; rfl
  | cons kv m ih =>
    obtain ⟨k, v⟩ := kv
    by_cases hk : (key == k) = true
    · right
      simp [mapGet, List.lookup, hk]
    · have hk2 : (key == k) = false := by simpa using hk
      rcases ih with h | h
      · left
        simpa [mapGet, List.lookup, hk2] using h
      · right
        have : mapGet ((k, v) :: m) zero key = mapGet m zero key := by
          simp [mapGet, List.lookup, hk2]
        rw [this]
        exact List.mem_cons_of_mem _ h

theorem lineBreaks_icon (weather : WeatherResponse) (ic : String) (h : icon weather = some ic) :
    lineBreaks ic = 0 := by
  unfold icon at h
  split at h
  · exact absurd h (by simp)
  · rename_i d0 _
    simp only [Option.some.injEq] at h
    subst h
    split_ifs with he
    · decide
    · rcases mapGet_mem (emoji (getMoonPhaseEmoji d0.MoonPhase)) "" weather.Currently.Icon
        with hz | hm
      · exact absurd hz he
      · generalize mapGet (emoji (getMoonPhaseEmoji d0.MoonPhase)) "" weather.Currently.Icon = v
          at hm
        simp only [emoji, List.map, List.mem_cons, List.mem_singleton, List.not_mem_nil,
          or_false] at hm
        rcases hm with h | h | h | h | h | h | h | h | h | h | h | h | h <;> subst h <;>
          first
          | exact lineBreaks_getMoonPhaseEmoji _
          | decide

/-! ## C1, C8: the report -/

/-- Outcome of a run that decodes a response whose daily data starts with `d0`. -/
theorem main_of_cons {Loc : Type} (rt : Runtime Loc) (flags : Flags)
    (weather : WeatherResponse) (d0 : DailyDatum) (rest : List DailyDatum)
    (h : Decodes rt flags weather) (hd : weather.Daily.Data = d0 :: rest) :
    ∃ ic, icon weather = some ic ∧
      main rt flags =
        { stdout := String.join (reportLines (resolvedLat rt flags) (resolvedLon rt flags)
            (resolvedUnits rt flags) ic (formatTime rt d0.SunriseTime weather.Timezone)
            (formatTime rt d0.SunsetTime weather.Timezone) weather),
          requests := [requestURL (rt.getenv "PIRATE_WEATHER_API_KEY") (resolvedLat rt flags)
            (resolvedLon rt flags) (resolvedUnits rt flags)],
          panicked := false } := by
  refine ⟨_, icon_of_cons weather d0 rest hd, ?_⟩
  rw [main_of_decodes rt flags weather h]
  simp [render, icon_of_cons weather d0 rest hd, hd]

/-- Among the four valid units values `tempUnit` is °F for us and °C otherwise. -/
theorem tempUnit_of_valid (units : String) (hu : units ∈ ["us", "si", "ca", "uk"]) :
    tempUnit units = if units = "us" then "°F" else "°C" := by
  simp only [List.mem_cons, List.mem_singleton, List.not_mem_nil, or_false] at hu
  rcases hu with h | h | h | h <;> subst h <;> decide

/-- C1 as stated fails: in a run with units uk the Wind Speed line ends in mph, not in
km/h. -/
theorem windUnit_uk_counterexample :
    (main (sampleRuntime ⟨"200 OK", 200, ""⟩
        (sampleWeather "clear-day" "Clear" [⟨Float64.lit 0.5, 1700047320, 1700083800⟩]))
        ⟨none, none, some "uk"⟩).stdout =
      "Pirate Weather\n📍 40.712800,-0.127800\n☀️ Clear\n🌅 Sunrise:        6:22 AM\n" ++
      "🌇 Sunset:         4:30 PM\n🌡️ Temperature:    72.3°C\n🌡️ Feels Like:     70.1°C\n" ++
      "☔️ Precip Chance:  10%\n💧 Humidity:       55%\n💨 Wind Speed:     5.0 mph\n" := by
  decide!

/-- C1 amended: in a run that decodes a 200 response with non-empty daily data, the
output ends with the Wind Speed line, whose suffix after the speed (one decimal) is
mph for units us and for units uk, m/s for si, and km/h for ca. -/
theorem windUnit_selection {Loc : Type} (rt : Runtime Loc) (flags : Flags)
    (weather : WeatherResponse) (d0 : DailyDatum) (rest : List DailyDatum)
    (h : Decodes rt flags weather) (hd : weather.Daily.Data = d0 :: rest) :
    (resolvedUnits rt flags = "us" → ∃ pre, (main rt flags).stdout =
        pre ++ ("💨 Wind Speed:     " ++ fmtFixed 1 weather.Currently.WindSpeed ++ " mph\n")) ∧
    (resolvedUnits rt flags = "si" → ∃ pre, (main rt flags).stdout =
        pre ++ ("💨 Wind Speed:     " ++ fmtFixed 1 weather.Currently.WindSpeed ++ " m/s\n")) ∧
    (resolvedUnits rt flags = "ca" → ∃ pre, (main rt flags).stdout =
        pre ++ ("💨 Wind Speed:     " ++ fmtFixed 1 weather.Currently.WindSpeed ++ " km/h\n")) ∧
    (resolvedUnits rt flags = "uk" → ∃ pre, (main rt flags).stdout =
        pre ++ ("💨 Wind Speed:     " ++ fmtFixed 1 weather.Currently.WindSpeed ++ " mph\n")) := by
  obtain ⟨ic, -, hmain⟩ := main_of_cons rt flags weather d0 rest h hd
  have hgen : ∃ pre, (main rt flags).stdout =
      pre ++ ("💨 Wind Speed:     " ++ fmtFixed 1 weather.Currently.WindSpeed ++ " " ++
        windUnit (resolvedUnits rt flags) ++ "\n") := by
    rw [hmain]
    simp only [reportLines, String.join, List.foldl]
    exact ⟨_, rfl⟩
  obtain ⟨pre, hp⟩ := hgen
  have e1 : " " ++ ("mph" ++ "\n") = " mph\n" := by decide
  have e2 : " " ++ ("m/s" ++ "\n") = " m/s\n" := by decide
  have e3 : " " ++ ("km/h" ++ "\n") = " km/h\n" := by decide
  have w1 : windUnit "us" = "mph" := by decide
  have w2 : windUnit "si" = "m/s" := by decide
  have w3 : windUnit "ca" = "km/h" := by decide
  have w4 : windUnit "uk" = "mph" := by decide
  refine ⟨?_, ?_, ?_, ?_⟩ <;> intro hu <;> refine ⟨pre, ?_⟩ <;> rw [hp, hu]
  · rw [w1]
    simp only [String.append_assoc, e1]
  · rw [w2]
    simp only [String.append_assoc, e2]
  · rw [w3]
    simp only [String.append_assoc, e3]
  · rw [w4]
    simp only [String.append_assoc, e1]

theorem windUnit_selection_witness :
    ∃ pre, (main (sampleRuntime ⟨"200 OK", 200, ""⟩
        (sampleWeather "clear-day" "Clear" [⟨Float64.lit 0.5, 1700047320, 1700083800⟩]))
        ⟨none, none, some "ca"⟩).stdout =
      pre ++ ("💨 Wind Speed:     " ++ fmtFixed 1 (Float64.lit 5) ++ " km/h\n") :=
  (windUnit_selection (sampleRuntime ⟨"200 OK", 200, ""⟩
      (sampleWeather "clear-day" "Clear" [⟨Float64.lit 0.5, 1700047320, 1700083800⟩]))
    ⟨none, none, some "ca"⟩
    (sampleWeather "clear-day" "Clear" [⟨Float64.lit 0.5, 1700047320, 1700083800⟩])
    ⟨Float64.lit 0.5, 1700047320, 1700083800⟩ []
    ⟨by decide, by decide, ⟨"200 OK", 200, ""⟩, rfl, rfl, rfl⟩ rfl).2.2.1 rfl

/-- C8 as stated fails: a decoded 200 response with one daily element whose summary
text holds a line break gives an output of eleven lines, not ten. -/
theorem report_layout_counterexample :
    Decodes (sampleRuntime ⟨"200 OK", 200, ""⟩
        (sampleWeather "clear-day" "Windy\nand clear"
          [⟨Float64.lit 0.5, 1700047320, 1700083800⟩]))
      ⟨none, none, some "us"⟩
      (sampleWeather "clear-day" "Windy\nand clear"
        [⟨Float64.lit 0.5, 1700047320, 1700083800⟩]) ∧
    lineBreaks (main (sampleRuntime ⟨"200 OK", 200, ""⟩
        (sampleWeather "clear-day" "Windy\nand clear"
          [⟨Float64.lit 0.5, 1700047320, 1700083800⟩]))
      ⟨none, none, some "us"⟩).stdout = 11 :=
  ⟨⟨by decide, by decide, ⟨"200 OK", 200, ""⟩, rfl, rfl, rfl⟩, by decide!⟩

/-- C8 amended: in a run that decodes a 200 response whose daily data starts with `d0`,
the output is the ten printed texts in the order title, location (latitude and
longitude by `%.6f`), icon and summary, sunrise, sunset, temperature (`%.1f` and unit),
feels-like, precipitation chance (probability times 100 by `%.0f`, then `%`), humidity
(times 100 by `%.0f`, then `%`), wind speed (`%.1f`, a blank and the unit), each ended
by a line break; the temperature unit is °F for units us and °C otherwise.  The output
has ten line breaks plus those of the summary text, so it is exactly ten lines when the
summary holds no line break.  For icon clear-day, temperature 72.3, humidity 0.55, precipitation
probability 0.1 and units us the icon is ☀️ and the temperature, precipitation and
humidity lines are `🌡️ Temperature:    72.3°F`, `☔️ Precip Chance:  10%` and
`💧 Humidity:       55%`. -/
theorem report_layout {Loc : Type} (rt : Runtime Loc) (flags : Flags)
    (weather : WeatherResponse) (d0 : DailyDatum) (rest : List DailyDatum)
    (h : Decodes rt flags weather) (hd : weather.Daily.Data = d0 :: rest) :
    ∃ ic, icon weather = some ic ∧
      (main rt flags).stdout = String.join
        ["Pirate Weather\n",
         "📍 " ++ fmtFixed 6 (resolvedLat rt flags) ++ "," ++ fmtFixed 6 (resolvedLon rt flags)
           ++ "\n",
         ic ++ " " ++ weather.Currently.Summary ++ "\n",
         "🌅 Sunrise:        " ++ formatTime rt d0.SunriseTime weather.Timezone ++ "\n",
         "🌇 Sunset:         " ++ formatTime rt d0.SunsetTime weather.Timezone ++ "\n",
         "🌡️ Temperature:    " ++ fmtFixed 1 weather.Currently.Temperature ++
           (if resolvedUnits rt flags = "us" then "°F" else "°C") ++ "\n",
         "🌡️ Feels Like:     " ++ fmtFixed 1 weather.Currently.ApparentTemperature ++
           (if resolvedUnits rt flags = "us" then "°F" else "°C") ++ "\n",
         "☔️ Precip Chance:  " ++
           fmtFixed 0 (weather.Currently.PrecipProbability.mul (Float64.lit 100)) ++ "%\n",
         "💧 Humidity:       " ++
           fmtFixed 0 (weather.Currently.Humidity.mul (Float64.lit 100)) ++ "%\n",
         "💨 Wind Speed:     " ++ fmtFixed 1 weather.Currently.WindSpeed ++ " " ++
           windUnit (resolvedUnits rt flags) ++ "\n"] ∧
      lineBreaks (main rt flags).stdout = 10 + lineBreaks weather.Currently.Summary ∧
      (lineBreaks weather.Currently.Summary = 0 → lineBreaks (main rt flags).stdout = 10) ∧
      (resolvedUnits rt flags = "us" → weather.Currently.Icon = "clear-day" →
        weather.Currently.Temperature = Float64.lit 72.3 →
        weather.Currently.Humidity = Float64.lit 0.55 →
        weather.Currently.PrecipProbability = Float64.lit 0.1 →
        ic = "☀️" ∧
        "🌡️ Temperature:    " ++ fmtFixed 1 weather.Currently.Temperature ++
           (if resolvedUnits rt flags = "us" then "°F" else "°C") ++ "\n" =
          "🌡️ Temperature:    72.3°F\n" ∧
        "☔️ Precip Chance:  " ++
           fmtFixed 0 (weather.Currently.PrecipProbability.mul (Float64.lit 100)) ++ "%\n" =
          "☔️ Precip Chance:  10%\n" ∧
        "💧 Humidity:       " ++
           fmtFixed 0 (weather.Currently.Humidity.mul (Float64.lit 100)) ++ "%\n" =
          "💧 Humidity:       55%\n") := by
  obtain ⟨ic, hic, hmain⟩ := main_of_cons rt flags weather d0 rest h hd
  have htu := tempUnit_of_valid (resolvedUnits rt flags) ((validUnits_iff _).1 h.2.1)
  have hout : (main rt flags).stdout = String.join
        ["Pirate Weather\n",
         "📍 " ++ fmtFixed 6 (resolvedLat rt flags) ++ "," ++ fmtFixed 6 (resolvedLon rt flags)
           ++ "\n",
         ic ++ " " ++ weather.Currently.Summary ++ "\n",
         "🌅 Sunrise:        " ++ formatTime rt d0.SunriseTime weather.Timezone ++ "\n",
         "🌇 Sunset:         " ++ formatTime rt d0.SunsetTime weather.Timezone ++ "\n",
         "🌡️ Temperature:    " ++ fmtFixed 1 weather.Currently.Temperature ++
           (if resolvedUnits rt flags = "us" then "°F" else "°C") ++ "\n",
         "🌡️ Feels Like:     " ++ fmtFixed 1 weather.Currently.ApparentTemperature ++
           (if resolvedUnits rt flags = "us" then "°F" else "°C") ++ "\n",
         "☔️ Precip Chance:  " ++
           fmtFixed 0 (weather.Currently.PrecipProbability.mul (Float64.lit 100)) ++ "%\n",
         "💧 Humidity:       " ++
           fmtFixed 0 (weather.Currently.Humidity.mul (Float64.lit 100)) ++ "%\n",
         "💨 Wind Speed:     " ++ fmtFixed 1 weather.Currently.WindSpeed ++ " " ++
           windUnit (resolvedUnits rt flags) ++ "\n"] := by
    rw [hmain, ← htu]
    rfl
  have hcount : lineBreaks (main rt flags).stdout =
      10 + lineBreaks weather.Currently.Summary := by
    have hu : lineBreaks (if resolvedUnits rt flags = "us" then "°F" else "°C") = 0 := by
      rw [← htu]
      exact lineBreaks_tempUnit _
    have l0 : lineBreaks "" = 0 := by decide
    have l1 : lineBreaks "Pirate Weather\n" = 1 := by decide
    have l2 : lineBreaks "📍 " = 0 := by decide
    have l3 : lineBreaks "," = 0 := by decide
    have l4 : lineBreaks "\n" = 1 := by decide
    have l5 : lineBreaks " " = 0 := by decide
    have l6 : lineBreaks "🌅 Sunrise:        " = 0 := by decide
    have l7 : lineBreaks "🌇 Sunset:         " = 0 := by decide
    have l8 : lineBreaks "🌡️ Temperature:    " = 0 := by decide
    have l9 : lineBreaks "🌡️ Feels Like:     " = 0 := by decide
    have l10 : lineBreaks "☔️ Precip Chance:  " = 0 := by decide
    have l11 : lineBreaks "%\n" = 1 := by decide
    have l12 : lineBreaks "💧 Humidity:       " = 0 := by decide
    have l13 : lineBreaks "💨 Wind Speed:     " = 0 := by decide
    rw [hout]
    simp only [String.join, List.foldl, lineBreaks_append, lineBreaks_fmtFixed,
      lineBreaks_formatTime, lineBreaks_windUnit, lineBreaks_icon weather ic hic, hu,
      l0, l1, l2, l3, l4, l5, l6, l7, l8, l9, l10, l11, l12, l13]
    omega
  refine ⟨ic, hic, hout, hcount, fun hs => by rw [hcount, hs], ?_⟩
  · intro hus hicon htemp hhum hprec
    have hic2 := (icon_of_cons weather d0 rest hd).symm.trans hic
    rw [hicon] at hic2
    rw [hus, htemp, hhum, hprec]
    refine ⟨?_, by decide!, by decide!, by decide!⟩
    have hget : ∀ m, mapGet (emoji m) "" "clear-day" = "☀️" := by
      intro m
      simp [mapGet, emoji, List.lookup]
    rw [hget] at hic2
    simp only [Option.some.injEq] at hic2
    rw [← hic2]
    decide

theorem report_layout_witness :
    lineBreaks (main (sampleRuntime ⟨"200 OK", 200, ""⟩
        (sampleWeather "clear-day" "Clear" [⟨Float64.lit 0.5, 1700047320, 1700083800⟩]))
      ⟨none, none, some "us"⟩).stdout = 10 :=
  (report_layout (sampleRuntime ⟨"200 OK", 200, ""⟩
      (sampleWeather "clear-day" "Clear" [⟨Float64.lit 0.5, 1700047320, 1700083800⟩]))
    ⟨none, none, some "us"⟩
    (sampleWeather "clear-day" "Clear" [⟨Float64.lit 0.5, 1700047320, 1700083800⟩])
    ⟨Float64.lit 0.5, 1700047320, 1700083800⟩ []
    ⟨by decide, by decide, ⟨"200 OK", 200, ""⟩, rfl, rfl, rfl⟩ rfl).elim
    (fun _ hx => hx.2.2.2.1 (by decide))

end PirateWeather
